import Mathlib

/-
Shallow embedding of `src/main.js` (XIII.Galery): the telemetry-driven
reactive gallery.  JavaScript numbers are modelled as ℚ where the code only
does field-wise arithmetic and comparisons, and as ℝ where transcendental
functions (sin, log10) appear.  Fallible external queries are modelled as
`Option` values.
-/

/-- JavaScript `parseFloat(x) || d`: a missing / non-finite parse result
(`none`, i.e. `NaN` or `undefined`) and the falsy value `0` both yield the
fallback `d`; any other finite value is kept.  Used by `updateSpaceWeather`
(src/main.js lines 114-121). -/
def jsOrQ : Option ℚ → ℚ → ℚ
  | none, d => d
  | some v, d => if v = 0 then d else v

/-- JavaScript `s || d` on strings: `undefined`/missing (`none`) and the falsy
empty string yield the fallback `d` (src/main.js line 124). -/
def jsOrS : Option String → String → String
  | none, d => d
  | some s, d => if s = "" then d else s

/-- JavaScript `s.startsWith(c)` for a single-character probe, as used by the
flare-class checks (`recentFlare.startsWith('X')`, `.startsWith('M')`). -/
def startsWithChar (s : String) (c : Char) : Bool :=
  match s.data with
  | [] => false
  | a :: _ => a == c

/-- The module-level `noaaData` object (src/main.js lines 20-30): raw
telemetry fields plus the two derived levels.  `radiationLevel` is ℝ because
its formula uses `log10`. -/
structure Noaa where
  ssn : ℚ
  kp : ℚ
  bz : ℚ
  solarWind : ℚ
  protonFlux : ℚ
  electronFlux : ℚ
  stormLevel : ℚ
  radiationLevel : ℝ
  recentFlare : String

/-- The initial value of `noaaData` (src/main.js lines 20-30): the fixed seed
defaults. -/
noncomputable def noaaSeed : Noaa :=
  { ssn := 50, kp := 2, bz := 0, solarWind := 400, protonFlux := 1
    electronFlux := 100, stormLevel := 0, radiationLevel := 0
    recentFlare := "None" }

/-- Results of the six concurrent NOAA queries (src/main.js lines 105-112).
Outer `none` = the fetch failed (the `catch` returned `null`) or, for the
wind/flare endpoints, the returned array was empty (the `?.length` guard).
Inner `none` = the extracted field was missing or failed to parse as a finite
number (JS `undefined`/`NaN`).  `rWind` carries `(wind_speed, bz)`; `rFlare`
carries `(current_class, max_class)` of the last array element. -/
structure QueryResults where
  rSSN : Option (Option ℚ)
  rProton : Option (Option ℚ)
  rFlare : Option (Option String × Option String)
  rKp : Option (Option ℚ)
  rWind : Option (Option ℚ × Option ℚ)
  rElectron : Option (Option ℚ)

/-- The raw-field update block of `updateSpaceWeather` (src/main.js lines
114-125).  The JS code assigns the fields sequentially, but each statement
touches a distinct field, so a field-wise record is the same function. -/
def updateRawFields (r : QueryResults) (d : Noaa) : Noaa :=
  { d with
    ssn := match r.rSSN with
      | none => d.ssn
      | some v => jsOrQ v 50
    protonFlux := match r.rProton with
      | none => d.protonFlux
      | some v => jsOrQ v 1
    kp := match r.rKp with
      | none => d.kp
      | some v => jsOrQ v 2
    solarWind := match r.rWind with
      | none => d.solarWind
      | some wv => jsOrQ wv.1 400
    bz := match r.rWind with
      | none => d.bz
      | some wv => jsOrQ wv.2 0
    electronFlux := match r.rElectron with
      | none => d.electronFlux
      | some v => jsOrQ v 100
    recentFlare := match r.rFlare with
      | none => d.recentFlare
      | some fv => jsOrS fv.1 (jsOrS fv.2 "None") }

/-- The flare boost of src/main.js line 127:
`recentFlare.startsWith('X') ? 0.8 : recentFlare.startsWith('M') ? 0.3 : 0`. -/
def flareBoost (f : String) : ℚ :=
  if startsWithChar f 'X' then 0.8 else if startsWithChar f 'M' then 0.3 else 0

/-- src/main.js line 128:
`radiationLevel = Math.min(1, (Math.log10(protonFlux + 1) / 5) + flareBoost)`. -/
noncomputable def radiationLevelCalc (p : ℚ) (f : String) : ℝ :=
  min 1 (Real.logb 10 ((p : ℝ) + 1) / 5 + (flareBoost f : ℝ))

/-- src/main.js line 129:
`stormLevel = Math.min(1, (kp / 9) + (bz < 0 ? Math.abs(bz) / 20 : 0))`. -/
def stormLevelCalc (kp bz : ℚ) : ℚ :=
  min 1 (kp / 9 + (if bz < 0 then |bz| / 20 else 0))

/-- One refresh cycle of `updateSpaceWeather` (src/main.js lines 103-144):
update the raw fields from the query results, then recompute the two derived
levels from the updated raw fields. -/
noncomputable def updateSpaceWeather (r : QueryResults) (d : Noaa) : Noaa :=
  let m := updateRawFields r d
  { m with
    radiationLevel := radiationLevelCalc m.protonFlux m.recentFlare
    stormLevel := stormLevelCalc m.kp m.bz }

/-- Content sequencer state: `currentIndex`/`currentType` of src/main.js
lines 16-17. -/
structure ContentState where
  currentIndex : ℤ
  currentType : String
deriving DecidableEq

/-- The type flip `currentType == 'jpg' ? 'gif' : 'jpg'` used by the
sequencer (src/main.js lines 280-281). -/
def flipType (t : String) : String :=
  if t == "jpg" then "gif" else "jpg"

/-- `nextContent` (src/main.js line 280): increment, wrap `> 13` to 1 and
flip the type at the wrap. -/
def nextContent (s : ContentState) : ContentState :=
  let i := s.currentIndex + 1
  if i > 13 then { currentIndex := 1, currentType := flipType s.currentType }
  else { s with currentIndex := i }

/-- `prevContent` (src/main.js line 281): decrement, wrap `< 1` to 13 and
flip the type at the wrap. -/
def prevContent (s : ContentState) : ContentState :=
  let i := s.currentIndex - 1
  if i < 1 then { currentIndex := 13, currentType := flipType s.currentType }
  else { s with currentIndex := i }

/-- The `moveState` flag object (src/main.js line 7). -/
structure MoveState where
  forward : Bool
  backward : Bool
  left : Bool
  right : Bool
  up : Bool
  down : Bool
deriving DecidableEq

/-- Navigation-related module state: `isAutopilot`, the two autopilot clocks
(src/main.js lines 9-11), the move flags, and the camera / orbit-target
positions the toggle could in principle touch. -/
structure NavState where
  isAutopilot : Bool
  autopilotTime : ℚ
  autopilotContentTimer : ℚ
  moveState : MoveState
  cameraPosition : ℚ × ℚ × ℚ
  controlsTarget : ℚ × ℚ × ℚ
deriving DecidableEq

/-- `toggleAutopilot` (src/main.js lines 233-242): flip the flag; when the
new mode is Autopilot, zero both clocks.  Nothing else is written (the DOM
button update is outside the model). -/
def toggleAutopilot (s : NavState) : NavState :=
  let s' := { s with isAutopilot := !s.isAutopilot }
  if s'.isAutopilot then
    { s' with autopilotTime := 0, autopilotContentTimer := 0 }
  else s'

/-- `stopCamera` (src/main.js line 339): set every move flag to `false`. -/
def stopCamera (s : NavState) : NavState :=
  { s with moveState := ⟨false, false, false, false, false, false⟩ }

/-- `toggleFX` (src/main.js lines 244-249): `isDynamic = !isDynamic` (the DOM
button update is outside the model). -/
def toggleFX (isDynamic : Bool) : Bool :=
  !isDynamic

/-- The scene handles mutated by the per-frame `animate` body (src/main.js
lines 422-508): the three spotlight intensities and their `userData`
base intensities, the reactive frame, the dust particles, the star field and
the ambient light.  `frameEmissive` is the emissive colour as its hex code. -/
structure SceneState where
  leftBase : ℝ
  centerBase : ℝ
  rightBase : ℝ
  leftIntensity : ℝ
  centerIntensity : ℝ
  rightIntensity : ℝ
  frameEmissive : ℕ
  frameEmissiveIntensity : ℝ
  frameRotationZ : ℝ
  frameBaseY : ℝ
  framePositionY : ℝ
  dustOpacity : ℝ
  dustPositionY : ℝ
  dustRotationY : ℝ
  starRotationY : ℝ
  starPositionZ : ℝ
  starOpacity : ℝ
  ambientIntensity : ℝ

/-- The NOAA-driven part of one `animate` frame (src/main.js lines 422-508).
When `isDynamic` is set it applies REACTION 1-6 exactly as written; when it
is cleared only the fallback star rotation `+= 0.0002` runs (line 507). -/
noncomputable def animateTick (n : Noaa) (time : ℝ) (isDynamic : Bool)
    (s : SceneState) : SceneState :=
  if isDynamic then
    let breathSpeed : ℝ := 1.5 + (n.kp : ℝ) / 3
    let breathDepth : ℝ := 0.2 + (n.stormLevel : ℝ) * 0.3
    let flarePulse : ℝ :=
      if startsWithChar n.recentFlare 'X' then Real.sin (time * 8) * 0.5 + 1.5
      else if startsWithChar n.recentFlare 'M' then Real.sin (time * 5) * 0.3 + 1.2
      else 1
    let pulse : ℝ → ℝ := fun phase =>
      Real.sin (time * breathSpeed + phase) * breathDepth + (1 - breathDepth / 2)
    { s with
      leftIntensity := s.leftBase * pulse 0 * flarePulse
      centerIntensity := s.centerBase * pulse 2 * flarePulse
      rightIntensity := s.rightBase * pulse 4 * flarePulse
      frameEmissive :=
        if n.bz < -5 then 0xff3300
        else if n.bz > 5 then 0x0066ff
        else if n.kp > 5 then 0x9933ff
        else if n.ssn > 100 then 0xffaa00
        else 0x003344
      frameEmissiveIntensity :=
        if n.bz < -5 then 0.3 + Real.sin (time * 2) * 0.2
        else if n.bz > 5 then 0.15 + Real.sin (time * 1) * 0.1
        else if n.kp > 5 then 0.4 + Real.sin (time * 3) * 0.3
        else if n.ssn > 100 then 0.2 + Real.sin (time * 1.5) * 0.15
        else 0.05 + Real.sin (time * 0.5) * 0.05
      frameRotationZ :=
        if n.radiationLevel > 0.3 then Real.sin (time * 20) * n.radiationLevel * 0.02
        else 0
      framePositionY :=
        s.frameBaseY + Real.sin (time * 0.3) * (((n.solarWind : ℝ) - 400) / 10000) * 0.5
      dustPositionY := Real.sin (time * 0.5) * 0.2
      dustRotationY := s.dustRotationY + (0.001 + ((n.solarWind : ℝ) - 400) / 1000)
      dustOpacity := 0.2 + (n.stormLevel : ℝ) * 0.3
      starRotationY := s.starRotationY + (0.0003 + (n.ssn : ℝ) / 50000)
      starPositionZ := s.starPositionZ + Real.sin time * 0.15
      starOpacity :=
        if n.radiationLevel > 0.3 then 0.4 + Real.sin (time * 10) * n.radiationLevel * 0.2
        else 0.4
      ambientIntensity := 0.03 + (n.stormLevel : ℝ) * 0.05 }
  else
    { s with starRotationY := s.starRotationY + 0.0002 }

/-- A run of consecutive frames: each entry supplies the telemetry snapshot
and the wall-clock time that frame reads (both may change between frames). -/
noncomputable def runTicks : List (Noaa × ℝ) → Bool → SceneState → SceneState
  | [], _, s => s
  | (n, t) :: rest, dyn, s => runTicks rest dyn (animateTick n t dyn s)

/-- Modelled from the spec wording of the palette priority chain (first match
wins): the emissive hex colour the spec says each branch selects. -/
def frameEmissiveSpec (n : Noaa) : ℕ :=
  if n.bz < -5 then 0xff3300
  else if n.bz > 5 then 0x0066ff
  else if n.kp > 5 then 0x9933ff
  else if n.ssn > 100 then 0xffaa00
  else 0x003344

/-- Modelled from the spec wording of the palette priority chain: the
emissive pulsation the spec writes for each branch
(`0.3 + 0.2 sin 2t`, `0.15 + 0.1 sin t`, `0.4 + 0.3 sin 3t`,
`0.2 + 0.15 sin 1.5t`, `0.05 + 0.05 sin 0.5t`). -/
noncomputable def frameEmissiveIntensitySpec (n : Noaa) (t : ℝ) : ℝ :=
  if n.bz < -5 then 0.3 + 0.2 * Real.sin (2 * t)
  else if n.bz > 5 then 0.15 + 0.1 * Real.sin t
  else if n.kp > 5 then 0.4 + 0.3 * Real.sin (3 * t)
  else if n.ssn > 100 then 0.2 + 0.15 * Real.sin (1.5 * t)
  else 0.05 + 0.05 * Real.sin (0.5 * t)

/-- The claim C3 / spec formula for the storm level, written with `max` as
the spec states it: `min(1, kIndex/9 + max(0, -bz)/20)`. -/
def stormLevelSpec (kp bz : ℚ) : ℚ :=
  min 1 (kp / 9 + max 0 (-bz) / 20)

/-- The claim C3 / spec formula for the radiation level:
`min(1, log10(protonFlux+1)/5 + flareBoost)` with the flare boost written
out as the spec states it. -/
noncomputable def radiationLevelSpec (p : ℚ) (f : String) : ℝ :=
  min 1 (Real.logb 10 ((p : ℝ) + 1) / 5 +
    (if startsWithChar f 'X' then (0.8 : ℝ)
     else if startsWithChar f 'M' then 0.3 else 0))

/-- Query-result bundle in which every endpoint failed. -/
def allFailed : QueryResults :=
  ⟨none, none, none, none, none, none⟩

/-- Query-result bundle: the proton query succeeded but its `flux` field did
not parse as a finite number; every other query failed. -/
def protonMalformed : QueryResults :=
  ⟨none, some none, none, none, none, none⟩

/-- Query-result bundle: proton flux, kp index and wind speed all parsed to
exactly `0`; every other query failed. -/
def zeroResults : QueryResults :=
  ⟨none, some (some 0), none, some (some 0), some (some 0, none), none⟩

/-- Query-result bundle: the kp query succeeded and parsed to `-9`; every
other query failed. -/
def negKpResults : QueryResults :=
  ⟨none, none, none, some (some (-9)), none, none⟩

/-- A navigation state in Autopilot mode with the `forward` move flag still
set (the flag survives joystick release races; nothing in the code clears it
on a mode toggle). -/
def movingAutopilot : NavState :=
  { isAutopilot := true, autopilotTime := 3, autopilotContentTimer := 4
    moveState := ⟨true, false, false, false, false, false⟩
    cameraPosition := (0, 0, 0), controlsTarget := (0, 0, 0) }

/-- A navigation state in Manual mode with no flags set and nonzero clocks
left over from a previous Autopilot run. -/
def manualIdle : NavState :=
  { isAutopilot := false, autopilotTime := 3, autopilotContentTimer := 4
    moveState := ⟨false, false, false, false, false, false⟩
    cameraPosition := (0, 2, 15), controlsTarget := (0, 2, -2) }

/-- The spec's storm example snapshot: kp 9, bz -10, otherwise the seed. -/
noncomputable def stormNoaa : Noaa :=
  { noaaSeed with kp := 9, bz := -10 }

/-- A concrete scene state with every handle at zero. -/
noncomputable def sceneZero : SceneState :=
  ⟨0, 0, 0, 0, 0, 0, 0, 0, 0, 0, 0, 0, 0, 0, 0, 0, 0, 0⟩

/-- C1 counterexample: a refresh in which the proton query succeeds but its
value fails to parse leaves the stored `protonFlux` equal to the seed default
`1`, not to its previous value `5` — the claimed retention fails. -/
theorem updateSpaceWeather_malformed_overwrites_cex :
    (updateSpaceWeather protonMalformed { noaaSeed with protonFlux := 5 }).protonFlux ≠
      ({ noaaSeed with protonFlux := 5 } : Noaa).protonFlux := by
  have h : (updateSpaceWeather protonMalformed
      { noaaSeed with protonFlux := 5 }).protonFlux = 1 := by
    simp [updateSpaceWeather, updateRawFields, protonMalformed, jsOrQ]
  rw [h]
  norm_num [noaaSeed]

/-- C1 (amended): a failed query leaves the corresponding raw snapshot field
unchanged, but a query that succeeds with a value that fails to parse as a
finite number resets the field to its fixed seed default (ssn 50, kp 2,
protonFlux 1, solarWind 400, bz 0, electronFlux 100), not to the previous
value. -/
theorem updateSpaceWeather_fail_retains_malformed_defaults
    (r : QueryResults) (d : Noaa) :
    (r.rSSN = none → (updateSpaceWeather r d).ssn = d.ssn) ∧
    (r.rSSN = some none → (updateSpaceWeather r d).ssn = 50) ∧
    (r.rKp = none → (updateSpaceWeather r d).kp = d.kp) ∧
    (r.rKp = some none → (updateSpaceWeather r d).kp = 2) ∧
    (r.rProton = none → (updateSpaceWeather r d).protonFlux = d.protonFlux) ∧
    (r.rProton = some none → (updateSpaceWeather r d).protonFlux = 1) ∧
    (r.rWind = none →
      (updateSpaceWeather r d).solarWind = d.solarWind ∧
      (updateSpaceWeather r d).bz = d.bz) ∧
    (∀ b, r.rWind = some (none, b) → (updateSpaceWeather r d).solarWind = 400) ∧
    (∀ w, r.rWind = some (w, none) → (updateSpaceWeather r d).bz = 0) ∧
    (r.rElectron = none → (updateSpaceWeather r d).electronFlux = d.electronFlux) ∧
    (r.rElectron = some none → (updateSpaceWeather r d).electronFlux = 100) := by
  refine ⟨?_, ?_, ?_, ?_, ?_, ?_, ?_, ?_, ?_, ?_, ?_⟩ <;>
    first
      | (intro h; simp [updateSpaceWeather, updateRawFields, h, jsOrQ])
      | (intro x h; simp [updateSpaceWeather, updateRawFields, h, jsOrQ])

/-- C1 witness: the amended behaviour at a concrete refresh — the proton
query succeeded malformed, so `protonFlux` becomes the seed default. -/
theorem updateSpaceWeather_fail_retains_malformed_defaults_witness :
    protonMalformed.rProton = some none ∧
    (updateSpaceWeather protonMalformed noaaSeed).protonFlux = 1 :=
  ⟨rfl, (updateSpaceWeather_fail_retains_malformed_defaults protonMalformed
    noaaSeed).2.2.2.2.2.1 rfl⟩

/-- C10: a successful query whose numeric field parses to exactly `0` stores
the fixed seed default (protonFlux 1, solarWind 400, kp 2), because the
fallback applies to every falsy parse result, not only to parse failures. -/
theorem updateSpaceWeather_zero_parse_resets_defaults
    (r : QueryResults) (d : Noaa) :
    (r.rProton = some (some 0) → (updateSpaceWeather r d).protonFlux = 1) ∧
    (∀ b, r.rWind = some (some 0, b) → (updateSpaceWeather r d).solarWind = 400) ∧
    (r.rKp = some (some 0) → (updateSpaceWeather r d).kp = 2) := by
  refine ⟨?_, ?_, ?_⟩ <;>
    first
      | (intro h; simp [updateSpaceWeather, updateRawFields, h, jsOrQ])
      | (intro x h; simp [updateSpaceWeather, updateRawFields, h, jsOrQ])

/-- C10 witness: a refresh in which proton flux, wind speed and kp all parse
to `0` resets those fields to `1`, `400` and `2` even though the previous
values were `5`, `500` and `7`. -/
theorem updateSpaceWeather_zero_parse_resets_defaults_witness :
    zeroResults.rProton = some (some 0) ∧
    (updateSpaceWeather zeroResults
      { noaaSeed with protonFlux := 5, solarWind := 500, kp := 7 }).protonFlux = 1 ∧
    (updateSpaceWeather zeroResults
      { noaaSeed with protonFlux := 5, solarWind := 500, kp := 7 }).solarWind = 400 ∧
    (updateSpaceWeather zeroResults
      { noaaSeed with protonFlux := 5, solarWind := 500, kp := 7 }).kp = 2 := by
  have h := updateSpaceWeather_zero_parse_resets_defaults zeroResults
    { noaaSeed with protonFlux := 5, solarWind := 500, kp := 7 }
  exact ⟨rfl, h.1 rfl, h.2.1 none rfl, h.2.2 rfl⟩

/-- C2 counterexample: a refresh whose kp query parses to the finite value
`-9` drives the stored `stormLevel` to `-1`, outside `[0,1]` — the claimed
bound fails for arbitrary finite raw input. -/
theorem stormLevel_negative_kp_cex :
    (updateSpaceWeather negKpResults noaaSeed).stormLevel < 0 := by
  have h : (updateSpaceWeather negKpResults noaaSeed).stormLevel =
      stormLevelCalc (-9) 0 := by
    simp [updateSpaceWeather, updateRawFields, negKpResults, noaaSeed, jsOrQ]
  rw [h]
  simp [stormLevelCalc, min_def]

/-- C2 (amended): for every nonnegative kIndex and protonFlux, every bz and
every flare-class string — including the extremes kIndex 9, bz -100,
protonFlux 10^9 — both derived levels lie within `[0,1]`. -/
theorem derived_levels_bounded (kp bz p : ℚ) (f : String)
    (hk : 0 ≤ kp) (hp : 0 ≤ p) :
    0 ≤ stormLevelCalc kp bz ∧ stormLevelCalc kp bz ≤ 1 ∧
    0 ≤ radiationLevelCalc p f ∧ radiationLevelCalc p f ≤ 1 := by
  refine ⟨?_, min_le_left 1 _, ?_, min_le_left 1 _⟩
  · unfold stormLevelCalc
    have h2 : (0:ℚ) ≤ (if bz < 0 then |bz| / 20 else 0) := by
      split_ifs <;> positivity
    have h3 : (0:ℚ) ≤ kp / 9 := by positivity
    exact le_min (by norm_num) (by linarith)
  · unfold radiationLevelCalc
    have hp' : (0:ℝ) ≤ (p : ℝ) := by exact_mod_cast hp
    have h1 : (0:ℝ) ≤ Real.logb 10 ((p : ℝ) + 1) :=
      Real.logb_nonneg (by norm_num) (by linarith)
    have h2 : (0:ℚ) ≤ flareBoost f := by
      unfold flareBoost; split_ifs <;> norm_num
    have h2' : (0:ℝ) ≤ (flareBoost f : ℝ) := by exact_mod_cast h2
    positivity

/-- C2 witness: the bounds at the spec's extreme point kIndex 9, bz -100,
protonFlux 10^9, flare class X5.0. -/
theorem derived_levels_bounded_witness :
    (0:ℚ) ≤ 9 ∧ (0:ℚ) ≤ 10 ^ 9 ∧
    (0 ≤ stormLevelCalc 9 (-100) ∧ stormLevelCalc 9 (-100) ≤ 1 ∧
     0 ≤ radiationLevelCalc (10 ^ 9) "X5.0" ∧
     radiationLevelCalc (10 ^ 9) "X5.0" ≤ 1) :=
  ⟨by norm_num, by norm_num,
    derived_levels_bounded 9 (-100) (10 ^ 9) "X5.0" (by norm_num) (by norm_num)⟩

/-- C3: the refresh computes the derived fields exactly as the spec formulas
state them (`stormLevel = min(1, kp/9 + max(0,-bz)/20)`,
`radiationLevel = min(1, log10(protonFlux+1)/5 + flareBoost)`), and on the
example snapshot kp 9, bz -10, protonFlux 1, flare X5.0 they evaluate to
`1` and `min(1, log10(2)/5 + 0.8)`. -/
theorem derived_formulas_exact :
    (∀ kp bz : ℚ, stormLevelCalc kp bz = stormLevelSpec kp bz) ∧
    (∀ (p : ℚ) (f : String), radiationLevelCalc p f = radiationLevelSpec p f) ∧
    (∀ (r : QueryResults) (d : Noaa),
      (updateSpaceWeather r d).stormLevel =
        stormLevelCalc (updateRawFields r d).kp (updateRawFields r d).bz ∧
      (updateSpaceWeather r d).radiationLevel =
        radiationLevelCalc (updateRawFields r d).protonFlux
          (updateRawFields r d).recentFlare) ∧
    stormLevelCalc 9 (-10) = 1 ∧
    radiationLevelCalc 1 "X5.0" = min 1 (Real.logb 10 2 / 5 + 0.8) := by
  refine ⟨?_, ?_, fun r d => ⟨rfl, rfl⟩, ?_, ?_⟩
  · intro kp bz
    unfold stormLevelCalc stormLevelSpec
    rcases lt_or_le bz 0 with h | h
    · rw [if_pos h, abs_of_neg h, max_eq_right (by linarith)]
    · rw [if_neg (not_lt.mpr h), max_eq_left (by linarith)]
      norm_num
  · intro p f
    unfold radiationLevelCalc radiationLevelSpec flareBoost
    split_ifs <;> push_cast <;> norm_num
  · simp [stormLevelCalc, min_def]
    norm_num
  · unfold radiationLevelCalc
    have h : flareBoost "X5.0" = 0.8 := by norm_num [flareBoost, startsWithChar]
    rw [h]
    norm_num

/-- One non-wrapping forward advance: below the bound the index increments
and the type is untouched. -/
theorem nextContent_step (s : ContentState) (h : s.currentIndex ≤ 12) :
    nextContent s = ⟨s.currentIndex + 1, s.currentType⟩ := by
  unfold nextContent
  rw [if_neg (by omega)]

/-- The wrapping forward advance: from 13 the index wraps to 1 and the type
flips. -/
theorem nextContent_thirteen (t : String) :
    nextContent ⟨13, t⟩ = ⟨1, flipType t⟩ := by
  unfold nextContent
  rw [if_pos (by norm_num)]

/-- Iterated non-wrapping advances accumulate into the index. -/
theorem nextContent_iterate_le (n : ℕ) : ∀ (i : ℤ) (t : String),
    i + n ≤ 13 → nextContent^[n] ⟨i, t⟩ = ⟨i + n, t⟩ := by
  induction n with
  | zero => intro i t h; simp
  | succ k ih =>
    intro i t h
    have h' : i + (k : ℤ) + 1 ≤ 13 := by push_cast at h; omega
    rw [Function.iterate_succ_apply,
      nextContent_step ⟨i, t⟩ (by dsimp only; omega)]
    dsimp only
    rw [ih (i + 1) t (by omega)]
    congr 1
    push_cast
    ring

/-- A single forward advance preserves the `[1,13]` index range. -/
theorem nextContent_range (s : ContentState) (h1 : 1 ≤ s.currentIndex)
    (h13 : s.currentIndex ≤ 13) :
    1 ≤ (nextContent s).currentIndex ∧ (nextContent s).currentIndex ≤ 13 := by
  unfold nextContent
  dsimp only
  split_ifs with h
  · exact ⟨by norm_num, by norm_num⟩
  · constructor <;> simp <;> omega

/-- Any number of forward advances preserves the `[1,13]` index range. -/
theorem nextContent_iterate_range (n : ℕ) (s : ContentState)
    (h1 : 1 ≤ s.currentIndex) (h13 : s.currentIndex ≤ 13) :
    1 ≤ (nextContent^[n] s).currentIndex ∧
    (nextContent^[n] s).currentIndex ≤ 13 := by
  induction n generalizing s with
  | zero => simpa using ⟨h1, h13⟩
  | succ k ih =>
    rw [Function.iterate_succ_apply]
    exact ih _ (nextContent_range s h1 h13).1 (nextContent_range s h1 h13).2

/-- The type flip never fixes a string. -/
theorem flipType_ne (t : String) : flipType t ≠ t := by
  unfold flipType
  by_cases hj : t = "jpg"
  · subst hj
    simp
  · rw [if_neg (by simpa using hj)]
    exact fun h => hj h.symm

/-- Thirteen forward advances from index 1 land back on index 1 with the
type flipped once. -/
theorem nextContent_cycle (t : String) :
    nextContent^[13] ⟨1, t⟩ = ⟨1, flipType t⟩ := by
  have h12 : nextContent^[12] (⟨1, t⟩ : ContentState) = ⟨13, t⟩ := by
    have h := nextContent_iterate_le 12 1 t (by norm_num)
    simpa using h
  rw [show (13 : ℕ) = 1 + 12 from rfl, Function.iterate_add_apply, h12,
    Function.iterate_one, nextContent_thirteen]

/-- One non-wrapping backward advance. -/
theorem prevContent_step (s : ContentState) (h : 1 < s.currentIndex) :
    prevContent s = ⟨s.currentIndex - 1, s.currentType⟩ := by
  unfold prevContent
  rw [if_neg (by omega)]

/-- The wrapping backward advance: from 1 the index wraps to 13 and the type
flips. -/
theorem prevContent_one (t : String) :
    prevContent ⟨1, t⟩ = ⟨13, flipType t⟩ := by
  unfold prevContent
  rw [if_pos (by norm_num)]

/-- C4: forward advances keep the index in `[1,13]`; a forward advance
increments, wrapping 13 to 1 and flipping the media kind exactly at the
wrap; 13 consecutive forward advances from index 1 return to index 1 with
the kind flipped exactly once; a backward advance mirrors this, wrapping 1
to 13 with a flip. -/
theorem content_sequencer_wraps :
    (∀ (n : ℕ) (s : ContentState), 1 ≤ s.currentIndex → s.currentIndex ≤ 13 →
      1 ≤ (nextContent^[n] s).currentIndex ∧
      (nextContent^[n] s).currentIndex ≤ 13) ∧
    (∀ s : ContentState, s.currentIndex ≤ 12 →
      nextContent s = ⟨s.currentIndex + 1, s.currentType⟩) ∧
    (∀ t, nextContent ⟨13, t⟩ = ⟨1, flipType t⟩) ∧
    (∀ t, flipType t ≠ t) ∧
    (∀ t, nextContent^[13] ⟨1, t⟩ = ⟨1, flipType t⟩) ∧
    (∀ t, prevContent ⟨1, t⟩ = ⟨13, flipType t⟩) ∧
    (∀ s : ContentState, 1 < s.currentIndex →
      prevContent s = ⟨s.currentIndex - 1, s.currentType⟩) :=
  ⟨nextContent_iterate_range, nextContent_step, nextContent_thirteen,
    flipType_ne, nextContent_cycle, prevContent_one, prevContent_step⟩

/-- C4 witness: concrete runs from index 1 with type jpg. -/
theorem content_sequencer_wraps_witness :
    (1 ≤ (nextContent^[5] (⟨1, "jpg"⟩ : ContentState)).currentIndex ∧
      (nextContent^[5] (⟨1, "jpg"⟩ : ContentState)).currentIndex ≤ 13) ∧
    nextContent^[13] (⟨1, "jpg"⟩ : ContentState) = ⟨1, "gif"⟩ ∧
    prevContent ⟨1, "jpg"⟩ = ⟨13, "gif"⟩ := by
  refine ⟨content_sequencer_wraps.1 5 ⟨1, "jpg"⟩ (by norm_num) (by norm_num),
    ?_, ?_⟩
  · have h := content_sequencer_wraps.2.2.2.2.1 "jpg"
    simpa [flipType] using h
  · have h := content_sequencer_wraps.2.2.2.2.2.1 "jpg"
    simpa [flipType] using h

/-- C5 counterexample: toggling out of Autopilot with the `forward` flag set
leaves the flag set — the claimed clearing of move flags does not happen. -/
theorem toggleAutopilot_move_flags_cex :
    (toggleAutopilot movingAutopilot).isAutopilot = false ∧
    (toggleAutopilot movingAutopilot).moveState.forward = true := by
  constructor <;> rfl

/-- C5 (amended): the mode toggle never touches the move flags — they are
unchanged in both directions; the flags are cleared only by `stopCamera`. -/
theorem toggleAutopilot_preserves_move_flags :
    (∀ s : NavState, (toggleAutopilot s).moveState = s.moveState) ∧
    (∀ s : NavState, (stopCamera s).moveState =
      ⟨false, false, false, false, false, false⟩) := by
  refine ⟨fun s => ?_, fun s => rfl⟩
  simp only [toggleAutopilot]
  split <;> rfl

/-- C6: the mode toggle does not move the camera or the orbit target, and
every entry into Autopilot zeroes both autopilot clocks. -/
theorem toggleAutopilot_continuity (s : NavState) :
    (toggleAutopilot s).cameraPosition = s.cameraPosition ∧
    (toggleAutopilot s).controlsTarget = s.controlsTarget ∧
    (s.isAutopilot = false →
      (toggleAutopilot s).isAutopilot = true ∧
      (toggleAutopilot s).autopilotTime = 0 ∧
      (toggleAutopilot s).autopilotContentTimer = 0) := by
  refine ⟨?_, ?_, fun h => ?_⟩
  · simp only [toggleAutopilot]
    split <;> rfl
  · simp only [toggleAutopilot]
    split <;> rfl
  · simp [toggleAutopilot, h]

/-- C6 witness: entering Autopilot from a concrete Manual state with stale
clocks keeps the camera and target and zeroes both clocks. -/
theorem toggleAutopilot_continuity_witness :
    (toggleAutopilot manualIdle).cameraPosition = manualIdle.cameraPosition ∧
    (toggleAutopilot manualIdle).controlsTarget = manualIdle.controlsTarget ∧
    (toggleAutopilot manualIdle).isAutopilot = true ∧
    (toggleAutopilot manualIdle).autopilotTime = 0 ∧
    (toggleAutopilot manualIdle).autopilotContentTimer = 0 := by
  have h := toggleAutopilot_continuity manualIdle
  exact ⟨h.1, h.2.1, (h.2.2 rfl).1, (h.2.2 rfl).2.1, (h.2.2 rfl).2.2⟩

/-- C9 counterexample: applying the reactive-animation toggle twice does not
equal applying it once — the operation is not idempotent. -/
theorem toggleFX_twice_cex : toggleFX (toggleFX true) ≠ toggleFX true := by
  decide

/-- C9 (amended): the toggle is an involution — applying it twice restores
the state it had before, and a single application always changes it. -/
theorem toggleFX_involutive :
    ∀ b : Bool, toggleFX (toggleFX b) = b ∧ toggleFX b ≠ b := by
  decide

/-- A frame taken with the dynamic toggle off only advances the star
rotation by 0.0002. -/
theorem animateTick_off (n : Noaa) (t : ℝ) (s : SceneState) :
    animateTick n t false s =
      { s with starRotationY := s.starRotationY + 0.0002 } := rfl

/-- C7: across any run of frames taken while the reactive-animation toggle
is disabled — whatever the telemetry and clock do meanwhile — the light
intensities, frame emissive colour and intensity, frame rotation and
vertical offset, dust opacity and position, star opacity and ambient
intensity keep the values they had when the toggle was disabled; the only
change is the star rotation advancing by 0.0002 per frame. -/
theorem dynamic_disabled_freezes (ticks : List (Noaa × ℝ)) (s : SceneState) :
    runTicks ticks false s =
      { s with starRotationY := s.starRotationY + 0.0002 * ticks.length } := by
  induction ticks generalizing s with
  | nil => simp [runTicks]
  | cons p rest ih =>
    obtain ⟨n, t⟩ := p
    rw [runTicks, animateTick_off, ih]
    congr 1
    push_cast [List.length_cons]
    ring

/-- C8: on every dynamic frame the frame palette is chosen by the
top-to-bottom first-match chain of the spec (both the hex colour and the
pulsating intensity), and in particular kp 9 with bz -10 selects the
red/orange alert palette `0.3 + 0.2 sin 2t` because the `bz < -5` branch
matches first. -/
theorem frame_palette_priority :
    (∀ (n : Noaa) (t : ℝ) (s : SceneState),
      (animateTick n t true s).frameEmissive = frameEmissiveSpec n ∧
      (animateTick n t true s).frameEmissiveIntensity =
        frameEmissiveIntensitySpec n t) ∧
    (∀ (n : Noaa) (t : ℝ) (s : SceneState), n.kp = 9 → n.bz = -10 →
      (animateTick n t true s).frameEmissive = 0xff3300 ∧
      (animateTick n t true s).frameEmissiveIntensity =
        0.3 + 0.2 * Real.sin (2 * t)) := by
  have hcol : ∀ (n : Noaa) (t : ℝ) (s : SceneState),
      (animateTick n t true s).frameEmissive = frameEmissiveSpec n :=
    fun n t s => rfl
  have hint : ∀ (n : Noaa) (t : ℝ) (s : SceneState),
      (animateTick n t true s).frameEmissiveIntensity =
        frameEmissiveIntensitySpec n t := by
    intro n t s
    have h : (animateTick n t true s).frameEmissiveIntensity =
        (if n.bz < -5 then 0.3 + Real.sin (t * 2) * 0.2
         else if n.bz > 5 then 0.15 + Real.sin (t * 1) * 0.1
         else if n.kp > 5 then 0.4 + Real.sin (t * 3) * 0.3
         else if n.ssn > 100 then 0.2 + Real.sin (t * 1.5) * 0.15
         else 0.05 + Real.sin (t * 0.5) * 0.05) := rfl
    rw [h]
    unfold frameEmissiveIntensitySpec
    split_ifs <;> ring_nf
  refine ⟨fun n t s => ⟨hcol n t s, hint n t s⟩, fun n t s h9 h10 => ⟨?_, ?_⟩⟩
  · rw [hcol]
    unfold frameEmissiveSpec
    rw [h10, if_pos (by norm_num)]
  · rw [hint]
    unfold frameEmissiveIntensitySpec
    rw [h10, if_pos (by norm_num)]

/-- C8 witness: the storm example snapshot on a concrete scene selects the
red/orange alert palette with its pulsation. -/
theorem frame_palette_priority_witness :
    stormNoaa.kp = 9 ∧ stormNoaa.bz = -10 ∧
    (animateTick stormNoaa 0 true sceneZero).frameEmissive = 0xff3300 ∧
    (animateTick stormNoaa 0 true sceneZero).frameEmissiveIntensity =
      0.3 + 0.2 * Real.sin (2 * 0) := by
  have h := frame_palette_priority.2 stormNoaa 0 sceneZero rfl rfl
  exact ⟨rfl, rfl, h.1, h.2⟩
